import Mathlib

/-!
Shallow embedding of the rq-typed-client-demo repository: hierarchical query
keys (`contentTypeKeys`, `languageKeys`), the mock transport
(`contentType.service.mock.ts`, `language.service.mock.ts`), the mutation flow
of `updateContentType.ts`, and a cache store modelled from the specification
(the runtime store itself is delegated to an external library and is not part
of the repository sources).
-/

set_option autoImplicit false

namespace RQDemo

/-- A field value inside one key segment: either a scalar string or a nested
record (the `filter` payload, a `Record<string, string>`). -/
inductive FieldValue where
  | str (s : String)
  | record (pairs : List (String × String))
deriving DecidableEq, Repr

/-- One key segment: an ordered mapping of field name to value, as produced by
JavaScript object literals built with spread. -/
abbrev Segment : Type := List (String × FieldValue)

/-- A structured key: an ordered sequence of segments. Every key built by this
repository is a one-element array holding a single segment object. -/
abbrev Key : Type := List Segment

/-- JavaScript object spread `{...seg, k: v}`: if `k` is already present its
value is replaced in place (keeping the original position), otherwise the
field is appended at the end. -/
def jsSet (seg : Segment) (k : String) (v : FieldValue) : Segment :=
  if seg.any (fun p => p.1 == k)
  then seg.map (fun p => if p.1 == k then (p.1, v) else p)
  else seg ++ [(k, v)]

/-! ### contentTypeKeys (src/queries/contentTypes/contentTypeKeys.ts) -/

/-- Embeds `contentTypeKeys.filterKeys.all = [{ type: 'contentType' }]`. -/
def contentTypeKeys_all : Key :=
  [[("type", FieldValue.str "contentType")]]

/-- Embeds `contentTypeKeys.filterKeys.allForEnvironment(projectId)`:
`[{ ...all[0], projectId }]`. -/
def contentTypeKeys_allForEnvironment (projectId : String) : Key :=
  [jsSet (contentTypeKeys_all.headD []) "projectId" (FieldValue.str projectId)]

/-- Embeds `contentTypeKeys.filterKeys.detailsForEnvironment(projectId)`:
`[{ ...allForEnvironment(projectId)[0], scope: 'detail' }]`. -/
def contentTypeKeys_detailsForEnvironment (projectId : String) : Key :=
  [jsSet ((contentTypeKeys_allForEnvironment projectId).headD [])
    "scope" (FieldValue.str "detail")]

/-- Embeds `contentTypeKeys.filterKeys.listsForEnvironment(projectId)`:
`[{ ...allForEnvironment(projectId)[0], scope: 'list' }]`. -/
def contentTypeKeys_listsForEnvironment (projectId : String) : Key :=
  [jsSet ((contentTypeKeys_allForEnvironment projectId).headD [])
    "scope" (FieldValue.str "list")]

/-- Embeds `contentTypeKeys.queryKeys.detail(projectId, detailId)`:
`[{ ...detailsForEnvironment(projectId)[0], detailId }]`. -/
def contentTypeKeys_detail (projectId detailId : String) : Key :=
  [jsSet ((contentTypeKeys_detailsForEnvironment projectId).headD [])
    "detailId" (FieldValue.str detailId)]

/-- Embeds `contentTypeKeys.queryKeys.list(projectId, filter)`:
`[{ ...listsForEnvironment(projectId)[0], filter: filter ?? {} }]`. -/
def contentTypeKeys_list (projectId : String)
    (filter : Option (List (String × String))) : Key :=
  [jsSet ((contentTypeKeys_listsForEnvironment projectId).headD [])
    "filter" (FieldValue.record (filter.getD []))]

/-! ### languageKeys (src/queries/languages/languageKeys.ts) -/

/-- Embeds `languageKeys.filterKeys.all = [{ type: 'language' }]`. -/
def languageKeys_all : Key :=
  [[("type", FieldValue.str "language")]]

/-- Embeds `languageKeys.filterKeys.allForEnvironment(projectId)`:
`[{ ...all[0], projectId }]`. -/
def languageKeys_allForEnvironment (projectId : String) : Key :=
  [jsSet (languageKeys_all.headD []) "projectId" (FieldValue.str projectId)]

/-- Embeds `languageKeys.filterKeys.listsForEnvironment(projectId)`:
`[{ ...allForEnvironment(projectId)[0], scope: 'list' }]`. -/
def languageKeys_listsForEnvironment (projectId : String) : Key :=
  [jsSet ((languageKeys_allForEnvironment projectId).headD [])
    "scope" (FieldValue.str "list")]

/-- Embeds `languageKeys.queryKeys.list(projectId)`:
`[{ ...listsForEnvironment(projectId)[0] }]` — a spread that adds no field. -/
def languageKeys_list (projectId : String) : Key :=
  [((languageKeys_listsForEnvironment projectId).headD []).map (fun p => p)]

/-! ### Key containment (the `matches` relation) -/

/-- First value stored under field name `name` in a segment. -/
def lookupField : Segment → String → Option FieldValue
  | [], _ => none
  | (k, v) :: rest, name => if k == name then some v else lookupField rest name

/-- Modelled from the spec: one segment of a filter key is contained in a
candidate segment when every field present in the filter segment appears in
the candidate with an equal value (section 3, containment relation). The
runtime matcher lives in the external query library, not in the repository
sources. -/
def segMatches (f q : Segment) : Bool :=
  f.all (fun p => lookupField q p.1 == some p.2)

/-- Modelled from the spec: the key algebra's `matches(filter, candidate)` —
the filter key's segment sequence is containment-wise a lead of the
candidate's (section 4.1). Both keys built by this repository are one-segment
arrays. Named `keyMatches` here because `matches` is reserved. -/
def keyMatches : Key → Key → Bool
  | [], _ => true
  | _ :: _, [] => false
  | f :: fs, q :: qs => segMatches f q && keyMatches fs qs

/-- The spec's phrasing of the containment law, stated independently: every
field of the filter segment appears in the candidate segment with an equal
value in the same declaration order (an order-preserving extension). -/
def segmentWithin : Segment → Segment → Bool
  | [], _ => true
  | _ :: _, [] => false
  | p :: ps, q :: qs =>
      if p = q then segmentWithin ps qs else segmentWithin (p :: ps) qs

/-- The containment law lifted to whole keys: the candidate is a
superset-extension of the filter, segment by segment in declaration order. -/
def keyWithin : Key → Key → Bool
  | [], _ => true
  | _ :: _, [] => false
  | f :: fs, q :: qs => segmentWithin f q && keyWithin fs qs

/-! ### Data models (contentType.model.ts, language.model.ts) -/

/-- Embeds `ContentType` record. -/
structure ContentType where
  id : String
  name : String
  codename : String
  lastModified : String
deriving DecidableEq, Repr

/-- Pagination metadata of a `ContentTypes` collection. -/
structure Pagination where
  count : Nat
  nextPage : Option String
deriving DecidableEq, Repr

/-- Embeds `ContentTypes` collection. -/
structure ContentTypes where
  data : List ContentType
  pagination : Pagination
deriving DecidableEq, Repr

/-- Embeds `Language` record. -/
structure Language where
  id : String
  name : String
  codename : String
deriving DecidableEq, Repr

/-! ### Mock transport (contentType.service.mock.ts, language.service.mock.ts) -/

/-- The `allContentTypes` array of the mock service. -/
def allContentTypes : List ContentType :=
  [ { id := "ct-001", name := "Article", codename := "article",
      lastModified := "2025-01-15T10:30:00Z" },
    { id := "ct-002", name := "Author", codename := "author",
      lastModified := "2025-01-14T15:20:00Z" },
    { id := "ct-003", name := "Product", codename := "product",
      lastModified := "2025-01-13T09:45:00Z" },
    { id := "ct-004", name := "Category", codename := "category",
      lastModified := "2025-01-12T14:10:00Z" } ]

/-- The `mockContentTypesByCodename` record of the mock service, as the lookup
it is used for: only `article`, `author` and `product` are present. -/
def mockContentTypesByCodename (codename : String) : Option ContentType :=
  if codename = "article" then
    some { id := "ct-001", name := "Article", codename := "article",
           lastModified := "2025-01-15T10:30:00Z" }
  else if codename = "author" then
    some { id := "ct-002", name := "Author", codename := "author",
           lastModified := "2025-01-14T15:20:00Z" }
  else if codename = "product" then
    some { id := "ct-003", name := "Product", codename := "product",
           lastModified := "2025-01-13T09:45:00Z" }
  else
    none

/-- Embeds `needle` occurs at the front of `hay`. -/
def charsLead : List Char → List Char → Bool
  | [], _ => true
  | _ :: _, [] => false
  | c :: cs, d :: ds => c == d && charsLead cs ds

/-- JavaScript `String.prototype.includes`: `needle` occurs somewhere in
`hay` as a contiguous run. -/
def charsWithin : List Char → List Char → Bool
  | needle, [] => needle.isEmpty
  | needle, d :: ds => charsLead needle (d :: ds) || charsWithin needle ds

/-- First value stored under `name` in a string record. -/
def lookupStr : List (String × String) → String → Option String
  | [], _ => none
  | (k, v) :: rest, name => if k == name then some v else lookupStr rest name

/-- Embeds `mock.fetchContentTypes(projectId, filter?)`: filters `allContentTypes`
by case-insensitive name substring when `filter?.name` is truthy (a present,
non-empty string — the empty string is falsy in JavaScript), and wraps the
result with pagination metadata. Always resolves. -/
def mockFetchContentTypes (_projectId : String)
    (filter : Option (List (String × String))) : ContentTypes :=
  let filteredTypes :=
    match filter.bind (fun f => lookupStr f "name") with
    | some name =>
        if name = "" then allContentTypes
        else allContentTypes.filter
          (fun ct => charsWithin name.toLower.data ct.name.toLower.data)
    | none => allContentTypes
  { data := filteredTypes,
    pagination := { count := filteredTypes.length, nextPage := none } }

/-- Embeds `mock.fetchContentType(projectId, contentTypeId)`: resolves with the
record from `mockContentTypesByCodename`, or rejects with an error when the
id is unknown. -/
def mockFetchContentType (_projectId contentTypeId : String) :
    Except String ContentType :=
  match mockContentTypesByCodename contentTypeId with
  | some contentType => Except.ok contentType
  | none =>
      Except.error
        ("Content type with ID \x27" ++ contentTypeId ++ "\x27 not found")

/-- Embeds `mock.updateContentType(contentType)`: always resolves with the input
record, its `lastModified` replaced by the commit-time timestamp
(`new Date().toISOString()`, passed here as `now`). -/
def mockUpdateContentType (contentType : ContentType) (now : String) :
    ContentType :=
  { contentType with lastModified := now }

/-- The `mockLanguages` array of the language mock service; returned by
`mock.fetchLanguages(projectId)`, which always resolves with it. -/
def mockLanguages : List Language :=
  [ { id := "lang-001", name := "English (United States)", codename := "en-us" },
    { id := "lang-002", name := "German (Germany)", codename := "de-de" },
    { id := "lang-003", name := "Spanish (Spain)", codename := "es-es" },
    { id := "lang-004", name := "French (France)", codename := "fr-fr" } ]

/-! ### Cache store

The runtime cache store is delegated to the external query library; the
repository only declares its typed surface (`typedQueryClient.type.ts`). The
store itself is therefore modelled from the specification (sections 3 and
4.3). -/

/-- A cached value: one of the registered cache models. -/
inductive CacheValue where
  | contentType (ct : ContentType)
  | contentTypes (cts : ContentTypes)
  | languages (ls : List Language)
deriving DecidableEq, Repr

/-- Modelled from the spec: entry lifecycle states (section 3, Cache Entry). -/
inductive EntryState where
  | idle
  | loading
  | success
  | error
deriving DecidableEq, Repr

/-- Modelled from the spec: a cache entry
`{state, value?, error?, lastUpdated, stale}` (section 3, Cache Entry). -/
structure Entry where
  state : EntryState
  value : Option CacheValue
  error : Option String
  lastUpdated : Nat
  stale : Bool
deriving DecidableEq, Repr

/-- Modelled from the spec: the Cache Store's key→entry map, keyed by
structural key equality (section 4.3). -/
abbrev Store : Type := List (Key × Entry)

/-- Modelled from the spec: `read(key) -> Entry | absent`, no side effect. -/
def read : Store → Key → Option Entry
  | [], _ => none
  | (k, e) :: rest, key => if k = key then some e else read rest key

/-- Replace the entry stored under a structurally equal key, or append a new
binding when the key is absent. -/
def upsert : Store → Key → Entry → Store
  | [], key, e => [(key, e)]
  | (k, e0) :: rest, key, e =>
      if k = key then (k, e) :: rest else (k, e0) :: upsert rest key e

/-- Modelled from the spec: `write(key, updater)` — creates the entry if
absent, replaces `value`, sets `state = success`, bumps `lastUpdated` (to the
supplied clock value `now`), clears `stale`; when the updater returns no
value, the store is left untouched (section 4.3). -/
def write (s : Store) (key : Key)
    (updater : Option CacheValue → Option CacheValue) (now : Nat) : Store :=
  match updater ((read s key).bind Entry.value) with
  | none => s
  | some v =>
      upsert s key
        { state := EntryState.success, value := some v, error := none,
          lastUpdated := now, stale := false }

/-- Modelled from the spec: `markError(key, error)` — transitions the entry's
state to `error`, creating the entry if absent; any previous value is kept
(section 4.3). -/
def markError (s : Store) (key : Key) (msg : String) : Store :=
  match read s key with
  | some e =>
      upsert s key { e with state := EntryState.error, error := some msg }
  | none =>
      upsert s key
        { state := EntryState.error, value := none, error := some msg,
          lastUpdated := 0, stale := false }

/-- Modelled from the spec: `invalidate(filterKey)` — sets `stale = true` on
every entry whose key the filter key matches; values are never cleared
(section 4.3). -/
def invalidate (s : Store) (filterKey : Key) : Store :=
  s.map (fun p =>
    if keyMatches filterKey p.1 then (p.1, { p.2 with stale := true }) else p)

/-- Modelled from the spec: the Query Executor's fetch-completion step —
success writes the fetched value and clears `stale`, failure calls
`markError` and leaves any previous value intact (section 4.4). -/
def applyFetchResult (s : Store) (key : Key)
    (result : Except String CacheValue) (now : Nat) : Store :=
  match result with
  | Except.ok v => write s key (fun _ => some v) now
  | Except.error msg => markError s key msg

/-- Modelled from the spec: the Mutation Coordinator — runs the origin commit
and, only on success, applies the caller-declared cache effects; on failure
the store is returned untouched and the error is surfaced (section 4.5). The
result pairs the store after the call with the surfaced error, if any. -/
def runMutation (s : Store) (commit : Except String ContentType)
    (onSuccess : ContentType → Store → Store) : Store × Option String :=
  match commit with
  | Except.error e => (s, some e)
  | Except.ok value => (onSuccess value s, none)

/-! ### updateContentType (src/queries/contentTypes/updateContentType.ts) -/

/-- The `onSuccess` cache effects of `updateContentType`: first
`setQueryData(contentTypeKeys.queryKeys.detail(variables.projectId, data.id),
() => data)`, then
`invalidateQueries({queryKey:
contentTypeKeys.filterKeys.listsForEnvironment(variables.projectId)})`. -/
def updateContentTypeOnSuccess (data : ContentType) (projectId : String)
    (now : Nat) (s : Store) : Store :=
  invalidate
    (write s (contentTypeKeys_detail projectId data.id)
      (fun _ => some (CacheValue.contentType data)) now)
    (contentTypeKeys_listsForEnvironment projectId)

/-- The full `updateContentType` mutation against a given commit outcome: the
`mutationFn` result feeds `onSuccess` through the coordinator. With the mock
transport the commit outcome is always
`Except.ok (mockUpdateContentType contentType commitTime)`. -/
def runUpdateContentTypeWith (s : Store) (projectId : String)
    (commit : Except String ContentType) (now : Nat) : Store × Option String :=
  runMutation s commit (fun data => updateContentTypeOnSuccess data projectId now)

/-- Embeds `updateContentType` run against the mock transport, which always
resolves. -/
def runUpdateContentType (s : Store) (projectId : String)
    (contentType : ContentType) (commitTime : String) (now : Nat) :
    Store × Option String :=
  runUpdateContentTypeWith s projectId
    (Except.ok (mockUpdateContentType contentType commitTime)) now

/-! ### Registered key constructors, enumerated

The two entities register finitely many key constructors; quantifying over
these enumerations states properties about every key the repository can
build. -/

/-- Enumerates every registered filter-key constructor of the two entities,
applied to arbitrary arguments. -/
inductive FilterKeySpec where
  | ctAll
  | ctAllForEnvironment (projectId : String)
  | ctDetailsForEnvironment (projectId : String)
  | ctListsForEnvironment (projectId : String)
  | langAll
  | langAllForEnvironment (projectId : String)
  | langListsForEnvironment (projectId : String)

/-- Embeds the key each filter-key constructor produces. -/
def FilterKeySpec.key : FilterKeySpec → Key
  | FilterKeySpec.ctAll => contentTypeKeys_all
  | FilterKeySpec.ctAllForEnvironment pid => contentTypeKeys_allForEnvironment pid
  | FilterKeySpec.ctDetailsForEnvironment pid =>
      contentTypeKeys_detailsForEnvironment pid
  | FilterKeySpec.ctListsForEnvironment pid =>
      contentTypeKeys_listsForEnvironment pid
  | FilterKeySpec.langAll => languageKeys_all
  | FilterKeySpec.langAllForEnvironment pid => languageKeys_allForEnvironment pid
  | FilterKeySpec.langListsForEnvironment pid =>
      languageKeys_listsForEnvironment pid

/-- An entity tag for each filter-key constructor: the value of the `type`
field its keys carry. -/
def FilterKeySpec.entity : FilterKeySpec → String
  | FilterKeySpec.ctAll => "contentType"
  | FilterKeySpec.ctAllForEnvironment _ => "contentType"
  | FilterKeySpec.ctDetailsForEnvironment _ => "contentType"
  | FilterKeySpec.ctListsForEnvironment _ => "contentType"
  | FilterKeySpec.langAll => "language"
  | FilterKeySpec.langAllForEnvironment _ => "language"
  | FilterKeySpec.langListsForEnvironment _ => "language"

/-- Enumerates every registered query-key constructor of the two entities,
applied to arbitrary arguments. -/
inductive QueryKeySpec where
  | ctDetail (projectId detailId : String)
  | ctList (projectId : String) (filter : Option (List (String × String)))
  | langList (projectId : String)

/-- Embeds the key each query-key constructor produces. -/
def QueryKeySpec.key : QueryKeySpec → Key
  | QueryKeySpec.ctDetail pid did => contentTypeKeys_detail pid did
  | QueryKeySpec.ctList pid filt => contentTypeKeys_list pid filt
  | QueryKeySpec.langList pid => languageKeys_list pid

/-- An entity tag for each query-key constructor: the value of the `type`
field its keys carry. -/
def QueryKeySpec.entity : QueryKeySpec → String
  | QueryKeySpec.ctDetail _ _ => "contentType"
  | QueryKeySpec.ctList _ _ => "contentType"
  | QueryKeySpec.langList _ => "language"

/-! ### Concrete scenario data -/

/-- The `article` content type of the mock data set. -/
def articleCT : ContentType :=
  { id := "ct-001", name := "Article", codename := "article",
    lastModified := "2025-01-15T10:30:00Z" }

/-- The `author` content type of the mock data set. -/
def authorCT : ContentType :=
  { id := "ct-002", name := "Author", codename := "author",
    lastModified := "2025-01-14T15:20:00Z" }

/-- The `product` content type of the mock data set. -/
def productCT : ContentType :=
  { id := "ct-003", name := "Product", codename := "product",
    lastModified := "2025-01-13T09:45:00Z" }

/-- The `category` content type of the mock data set: present in
`allContentTypes` but absent from `mockContentTypesByCodename`. -/
def categoryCT : ContentType :=
  { id := "ct-004", name := "Category", codename := "category",
    lastModified := "2025-01-12T14:10:00Z" }

/-- A populated cache for the detail-update-propagation and disjointness
scenarios: a cached `article` detail, a cached content-type list, a cached
`author` detail, and a cached language list, all fresh. -/
def c1Store : Store :=
  [ (contentTypeKeys_detail "project-001" "ct-001",
     { state := EntryState.success,
       value := some (CacheValue.contentType articleCT),
       error := none, lastUpdated := 1, stale := false }),
    (contentTypeKeys_list "project-001" none,
     { state := EntryState.success,
       value := some
         (CacheValue.contentTypes (mockFetchContentTypes "project-001" none)),
       error := none, lastUpdated := 1, stale := false }),
    (contentTypeKeys_detail "project-001" "ct-002",
     { state := EntryState.success,
       value := some (CacheValue.contentType authorCT),
       error := none, lastUpdated := 1, stale := false }),
    (languageKeys_list "project-001",
     { state := EntryState.success,
       value := some (CacheValue.languages mockLanguages),
       error := none, lastUpdated := 1, stale := false }) ]

/-- The cache of `c1Store` after the `updateContentType` mutation commits
`{article with name := "Article (Updated)"}` at commit time
`2025-02-01T00:00:00Z`, store clock `2`. -/
def c1After : Store :=
  (runUpdateContentType c1Store "project-001"
    { articleCT with name := "Article (Updated)" } "2025-02-01T00:00:00Z" 2).1

/-- A one-entry cache holding a fresh `product` detail, for the
failed-refetch scenario. -/
def c6Store : Store :=
  [ (contentTypeKeys_detail "project-001" "ct-003",
     { state := EntryState.success,
       value := some (CacheValue.contentType productCT),
       error := none, lastUpdated := 1, stale := false }) ]

/-- The entry stored in `c6Store`. -/
def c6Entry : Entry :=
  { state := EntryState.success,
    value := some (CacheValue.contentType productCT),
    error := none, lastUpdated := 1, stale := false }

/-! ### Helper lemmas -/

/-- Reading back the key just written into the store returns the new entry. -/
theorem read_upsert (s : Store) (k : Key) (e : Entry) :
    read (upsert s k e) k = some e := by
  induction s with
  | nil => simp [upsert, read]
  | cons p rest ih =>
      obtain ⟨k0, e0⟩ := p
      by_cases hk : k0 = k
      · subst hk
        simp [upsert, read]
      · simp [upsert, read, hk, ih]

/-- Invalidation leaves every entry whose key the filter key does not match
untouched. -/
theorem read_invalidate_unmatched (s : Store) (filterKey k : Key)
    (h : keyMatches filterKey k = false) :
    read (invalidate s filterKey) k = read s k := by
  induction s with
  | nil => rfl
  | cons p rest ih =>
      obtain ⟨k0, e0⟩ := p
      simp only [invalidate, List.map_cons] at ih ⊢
      by_cases hm : keyMatches filterKey k0 = true
      · rw [if_pos hm]
        by_cases hk : k0 = k
        · subst hk
          rw [hm] at h
          cases h
        · simp [read, hk, ih]
      · rw [if_neg hm]
        by_cases hk : k0 = k
        · subst hk
          simp [read, ih]
        · simp [read, hk, ih]

/-- A filter key of one entity never matches a query key of the other: the
`type` fields differ. -/
theorem entity_mismatch_unmatched (F : FilterKeySpec) (Q : QueryKeySpec)
    (h : FilterKeySpec.entity F ≠ QueryKeySpec.entity Q) :
    keyMatches F.key Q.key = false := by
  cases F <;> cases Q <;> first | rfl | exact absurd rfl h

/-! ### Claim theorems -/

/-- C1. Detail-update propagation: after the mutation commits the updated
content type with id `ct-001` and name `Article (Updated)`, the coordinator
writes the new value to the detail key for `(project-001, ct-001)` — reading
that key returns the committed value with name `Article (Updated)`, fresh —
and invalidates the lists-for-environment filter key, so the cached
content-type list entry for the project is stale with its value retained,
while the other detail entry and the language list entry are unchanged and
non-stale. -/
theorem detail_update_propagation :
    (runUpdateContentType c1Store "project-001"
        { articleCT with name := "Article (Updated)" }
        "2025-02-01T00:00:00Z" 2).2 = none ∧
    read c1After (contentTypeKeys_detail "project-001" "ct-001") =
      some { state := EntryState.success,
             value := some (CacheValue.contentType
               { id := "ct-001", name := "Article (Updated)",
                 codename := "article",
                 lastModified := "2025-02-01T00:00:00Z" }),
             error := none, lastUpdated := 2, stale := false } ∧
    read c1After (contentTypeKeys_list "project-001" none) =
      some { state := EntryState.success,
             value := some (CacheValue.contentTypes
               (mockFetchContentTypes "project-001" none)),
             error := none, lastUpdated := 1, stale := true } ∧
    read c1After (contentTypeKeys_detail "project-001" "ct-002") =
      some { state := EntryState.success,
             value := some (CacheValue.contentType authorCT),
             error := none, lastUpdated := 1, stale := false } ∧
    read c1After (languageKeys_list "project-001") =
      some { state := EntryState.success,
             value := some (CacheValue.languages mockLanguages),
             error := none, lastUpdated := 1, stale := false } := by
  decide

/-- C2. Containment law: for every filter key and query key built by the
registered constructors of the two entities, `matches` holds exactly when the
query key's field sequence is a superset-extension of the filter key's in
declaration order; in particular the zero-extension `all` filter key of an
entity matches every query key of that entity, for every projectId, detailId
and filter payload. -/
theorem containment_law :
    (∀ (F : FilterKeySpec) (Q : QueryKeySpec),
        keyMatches F.key Q.key = keyWithin F.key Q.key) ∧
    (∀ (pid did pid2 : String) (filt : Option (List (String × String))),
        keyMatches contentTypeKeys_all (contentTypeKeys_detail pid did) = true ∧
        keyMatches contentTypeKeys_all (contentTypeKeys_list pid filt) = true ∧
        keyMatches languageKeys_all (languageKeys_list pid2) = true) := by
  constructor
  · intro F Q
    cases F <;> cases Q <;>
      first
      | rfl
      | (rename_i a b c
         rcases eq_or_ne a b with h | h
         · subst h
           simp [FilterKeySpec.key, QueryKeySpec.key, keyMatches, segMatches,
             lookupField, keyWithin, segmentWithin, jsSet,
             contentTypeKeys_all, contentTypeKeys_allForEnvironment,
             contentTypeKeys_detailsForEnvironment,
             contentTypeKeys_listsForEnvironment,
             contentTypeKeys_detail, contentTypeKeys_list,
             languageKeys_all, languageKeys_allForEnvironment,
             languageKeys_listsForEnvironment, languageKeys_list]
         · simp [FilterKeySpec.key, QueryKeySpec.key, keyMatches, segMatches,
             lookupField, keyWithin, segmentWithin, jsSet,
             contentTypeKeys_all, contentTypeKeys_allForEnvironment,
             contentTypeKeys_detailsForEnvironment,
             contentTypeKeys_listsForEnvironment,
             contentTypeKeys_detail, contentTypeKeys_list,
             languageKeys_all, languageKeys_allForEnvironment,
             languageKeys_listsForEnvironment, languageKeys_list,
             h, Ne.symm h])
      | (rename_i a b
         rcases eq_or_ne a b with h | h
         · subst h
           simp [FilterKeySpec.key, QueryKeySpec.key, keyMatches, segMatches,
             lookupField, keyWithin, segmentWithin, jsSet,
             contentTypeKeys_all, contentTypeKeys_allForEnvironment,
             contentTypeKeys_detailsForEnvironment,
             contentTypeKeys_listsForEnvironment,
             contentTypeKeys_detail, contentTypeKeys_list,
             languageKeys_all, languageKeys_allForEnvironment,
             languageKeys_listsForEnvironment, languageKeys_list]
         · simp [FilterKeySpec.key, QueryKeySpec.key, keyMatches, segMatches,
             lookupField, keyWithin, segmentWithin, jsSet,
             contentTypeKeys_all, contentTypeKeys_allForEnvironment,
             contentTypeKeys_detailsForEnvironment,
             contentTypeKeys_listsForEnvironment,
             contentTypeKeys_detail, contentTypeKeys_list,
             languageKeys_all, languageKeys_allForEnvironment,
             languageKeys_listsForEnvironment, languageKeys_list,
             h, Ne.symm h])
  · intro pid did pid2 filt
    exact ⟨rfl, rfl, rfl⟩

/-- C3. Mutation atomicity: when the origin commit of the `updateContentType`
flow fails, the cache store after the call is exactly the store from before
the call and the error is surfaced; the declared cache effects run only on a
confirmed success. -/
theorem mutation_atomicity (s : Store) (projectId msg : String) (now : Nat) :
    runUpdateContentTypeWith s projectId (Except.error msg) now =
      (s, some msg) ∧
    ∀ d : ContentType,
      runUpdateContentTypeWith s projectId (Except.ok d) now =
        (updateContentTypeOnSuccess d projectId now s, none) :=
  ⟨rfl, fun _ => rfl⟩

/-- C4 counterexample. The language entity's `list` query key adds no field
beyond its `listsForEnvironment` filter key: at projectId `project-001` the
two keys are structurally equal, so the query key does not carry at least one
extra field, contradicting the claim. -/
theorem language_list_query_key_adds_no_field :
    languageKeys_list "project-001" =
      languageKeys_listsForEnvironment "project-001" ∧
    ¬ (((languageKeys_listsForEnvironment "project-001").headD []).length <
        ((languageKeys_list "project-001").headD []).length) := by
  decide

/-- C4 amended. The content-type query keys strictly extend their parent
filter keys — `detail` appends `detailId` beyond `detailsForEnvironment` and
`list` appends `filter` beyond `listsForEnvironment` — while the language
entity's `list` query key is an extension by zero fields: it equals its
`listsForEnvironment` filter key. -/
theorem query_key_extension_amended
    (pid did : String) (filt : Option (List (String × String))) :
    (contentTypeKeys_detail pid did).headD [] =
      ((contentTypeKeys_detailsForEnvironment pid).headD []) ++
        [("detailId", FieldValue.str did)] ∧
    (contentTypeKeys_list pid filt).headD [] =
      ((contentTypeKeys_listsForEnvironment pid).headD []) ++
        [("filter", FieldValue.record (filt.getD []))] ∧
    languageKeys_list pid = languageKeys_listsForEnvironment pid :=
  ⟨rfl, rfl, rfl⟩

/-- C5. Write-then-read round-trip: writing a value under any key and reading
that key back returns exactly that value, with the entry's state `success`,
`lastUpdated` bumped to the write-time clock and the stale flag cleared. -/
theorem write_then_read_round_trip
    (s : Store) (k : Key) (v : CacheValue) (now : Nat) :
    read (write s k (fun _ => some v) now) k =
      some { state := EntryState.success, value := some v, error := none,
             lastUpdated := now, stale := false } :=
  read_upsert s k _

/-- C6. Failed fetch preserves the prior value: when an entry holds a value
and a refetch through the mock transport errors (an unknown content type id),
the entry afterwards still holds the same value and its state is `error`. -/
theorem failed_refetch_preserves_value (s : Store) (k : Key) (e : Entry)
    (v : CacheValue) (pid ctId msg : String) (now : Nat)
    (hread : read s k = some e) (hval : e.value = some v)
    (hfetch : mockFetchContentType pid ctId = Except.error msg) :
    read (applyFetchResult s k
        ((mockFetchContentType pid ctId).map CacheValue.contentType) now) k =
      some { e with state := EntryState.error, error := some msg } ∧
    (read (applyFetchResult s k
        ((mockFetchContentType pid ctId).map CacheValue.contentType) now) k).bind
        Entry.value = some v := by
  have hmap : (mockFetchContentType pid ctId).map CacheValue.contentType =
      Except.error msg := by
    rw [hfetch]
    rfl
  rw [hmap]
  have h1 : read (applyFetchResult s k (Except.error msg) now) k =
      some { e with state := EntryState.error, error := some msg } := by
    simp [applyFetchResult, markError, hread, read_upsert]
  refine ⟨h1, ?_⟩
  rw [h1]
  simp [hval]

/-- C6 witness: the cached `Product` detail entry survives a failed refetch
for `category` with its value intact and state `error`. -/
theorem failed_refetch_preserves_value_witness :
    read (applyFetchResult c6Store
        (contentTypeKeys_detail "project-001" "ct-003")
        ((mockFetchContentType "project-001" "category").map
          CacheValue.contentType) 5)
      (contentTypeKeys_detail "project-001" "ct-003") =
      some { c6Entry with
             state := EntryState.error,
             error := some "Content type with ID \x27category\x27 not found" } ∧
    (read (applyFetchResult c6Store
        (contentTypeKeys_detail "project-001" "ct-003")
        ((mockFetchContentType "project-001" "category").map
          CacheValue.contentType) 5)
      (contentTypeKeys_detail "project-001" "ct-003")).bind Entry.value =
      some (CacheValue.contentType productCT) :=
  failed_refetch_preserves_value c6Store
    (contentTypeKeys_detail "project-001" "ct-003") c6Entry
    (CacheValue.contentType productCT) "project-001" "category"
    "Content type with ID \x27category\x27 not found" 5
    (by decide) (by decide) rfl

/-- C7. Key construction is deterministic and order-stable: every registered
constructor produces, for any arguments, the canonical single-segment key
whose fields stand in declaration order — `type`, then `projectId`, then
`scope`, then the leaf-specific field — and two detail keys are structurally
equal exactly when their arguments coincide. -/
theorem key_construction_deterministic_order_stable :
    contentTypeKeys_all = [[("type", FieldValue.str "contentType")]] ∧
    (∀ pid, contentTypeKeys_allForEnvironment pid =
      [[("type", FieldValue.str "contentType"),
        ("projectId", FieldValue.str pid)]]) ∧
    (∀ pid, contentTypeKeys_detailsForEnvironment pid =
      [[("type", FieldValue.str "contentType"),
        ("projectId", FieldValue.str pid),
        ("scope", FieldValue.str "detail")]]) ∧
    (∀ pid, contentTypeKeys_listsForEnvironment pid =
      [[("type", FieldValue.str "contentType"),
        ("projectId", FieldValue.str pid),
        ("scope", FieldValue.str "list")]]) ∧
    (∀ pid did, contentTypeKeys_detail pid did =
      [[("type", FieldValue.str "contentType"),
        ("projectId", FieldValue.str pid),
        ("scope", FieldValue.str "detail"),
        ("detailId", FieldValue.str did)]]) ∧
    (∀ pid filt, contentTypeKeys_list pid filt =
      [[("type", FieldValue.str "contentType"),
        ("projectId", FieldValue.str pid),
        ("scope", FieldValue.str "list"),
        ("filter", FieldValue.record (filt.getD []))]]) ∧
    languageKeys_all = [[("type", FieldValue.str "language")]] ∧
    (∀ pid, languageKeys_allForEnvironment pid =
      [[("type", FieldValue.str "language"),
        ("projectId", FieldValue.str pid)]]) ∧
    (∀ pid, languageKeys_listsForEnvironment pid =
      [[("type", FieldValue.str "language"),
        ("projectId", FieldValue.str pid),
        ("scope", FieldValue.str "list")]]) ∧
    (∀ pid, languageKeys_list pid =
      [[("type", FieldValue.str "language"),
        ("projectId", FieldValue.str pid),
        ("scope", FieldValue.str "list")]]) ∧
    (∀ pid did pid' did',
      contentTypeKeys_detail pid did = contentTypeKeys_detail pid' did' ↔
        pid = pid' ∧ did = did') := by
  refine ⟨rfl, fun _ => rfl, fun _ => rfl, fun _ => rfl, fun _ _ => rfl,
    fun _ _ => rfl, rfl, fun _ => rfl, fun _ => rfl, fun _ => rfl, ?_⟩
  intro pid did pid' did'
  simp [contentTypeKeys_detail, contentTypeKeys_detailsForEnvironment,
    contentTypeKeys_allForEnvironment, contentTypeKeys_all, jsSet]

/-- C8. List/detail inconsistency of the transport mock: fetching a detail
succeeds exactly for the codenames `article`, `author` and `product`, yet the
list fetch returns a collection containing the `category` content type
(`ct-004`), whose detail fetch always rejects. -/
theorem transport_detail_list_inconsistency (pid : String) :
    (∀ ctId, (mockFetchContentType pid ctId).isOk =
        decide (ctId = "article" ∨ ctId = "author" ∨ ctId = "product")) ∧
    categoryCT ∈ (mockFetchContentTypes pid none).data ∧
    mockFetchContentType pid "category" =
      Except.error "Content type with ID \x27category\x27 not found" := by
  refine ⟨?_, ?_, rfl⟩
  · intro ctId
    by_cases h1 : ctId = "article" <;> by_cases h2 : ctId = "author" <;>
      by_cases h3 : ctId = "product" <;>
        simp [mockFetchContentType, mockContentTypesByCodename,
          Except.isOk, Except.toBool, h1, h2, h3]
  · simp [mockFetchContentTypes, allContentTypes, categoryCT]

/-- C9. Commit frame condition: the mock origin commit returns a record whose
`id`, `name` and `codename` equal the caller's, replacing only
`lastModified` with the commit-time timestamp. -/
theorem update_commit_frame_condition (ct : ContentType) (now : String) :
    (mockUpdateContentType ct now).id = ct.id ∧
    (mockUpdateContentType ct now).name = ct.name ∧
    (mockUpdateContentType ct now).codename = ct.codename ∧
    (mockUpdateContentType ct now).lastModified = now :=
  ⟨rfl, rfl, rfl, rfl⟩

/-- C10. Cross-entity key disjointness: every key of either entity carries
its entity's `type` value as the first field of its segment, a filter key of
one entity never matches a query key of the other, and invalidating a filter
key of one entity leaves every entry stored under the other entity's keys
untouched. -/
theorem cross_entity_key_disjointness :
    (∀ F : FilterKeySpec,
      (F.key.headD []).head? =
        some ("type", FieldValue.str (FilterKeySpec.entity F))) ∧
    (∀ Q : QueryKeySpec,
      (Q.key.headD []).head? =
        some ("type", FieldValue.str (QueryKeySpec.entity Q))) ∧
    (∀ (F : FilterKeySpec) (Q : QueryKeySpec),
      FilterKeySpec.entity F ≠ QueryKeySpec.entity Q →
        keyMatches F.key Q.key = false) ∧
    (∀ (F : FilterKeySpec) (Q : QueryKeySpec) (s : Store),
      FilterKeySpec.entity F ≠ QueryKeySpec.entity Q →
        read (invalidate s F.key) Q.key = read s Q.key) := by
  refine ⟨?_, ?_, ?_, ?_⟩
  · intro F
    cases F <;> rfl
  · intro Q
    cases Q <;> rfl
  · intro F Q h
    exact entity_mismatch_unmatched F Q h
  · intro F Q s h
    exact read_invalidate_unmatched s F.key Q.key
      (entity_mismatch_unmatched F Q h)

/-- C10 witness: invalidating the content-type lists filter key for
`project-001` does not match and does not touch the language list entry. -/
theorem cross_entity_key_disjointness_witness :
    keyMatches (FilterKeySpec.ctListsForEnvironment "project-001").key
      (QueryKeySpec.langList "project-001").key = false ∧
    read (invalidate c1Store
        (FilterKeySpec.ctListsForEnvironment "project-001").key)
      (QueryKeySpec.langList "project-001").key =
      read c1Store (QueryKeySpec.langList "project-001").key :=
  ⟨cross_entity_key_disjointness.2.2.1 _ _ (by decide),
   cross_entity_key_disjointness.2.2.2 _ _ c1Store (by decide)⟩

end RQDemo
